import Mathlib

/-!
# SSO-1 signal oracle — verification development

Shallow embedding of the SSO-1 repository's verification core and proofs of
the specification's claims about it.

Embedded from source:
* `src/oracle/offchain/tee/__init__.py` — the TEE module (`TeePlatform`,
  `AttestationReport`, `SevSnpAttester`, `detect_platform`,
  `hash_signal_data`, `get_attester`).
* `src/tests/integration/test_signal_oracle.py` — the binding-hash and
  report-data construction (`TeeReceiptBuilder._compute_message`,
  `TeeReceiptBuilder._compute_report_data`) and the policy test constants
  (`MIN_VALIDITY_SLOTS`, `MAX_VALIDITY_SLOTS`, `MIN_SOURCE_COUNT`,
  `MIN_CONFIDENCE`).

The on-chain verification engine (instructions `initialize_config`,
`set_paused`, `register_provider`, `add_enclave`, `deactivate_provider`,
`submit_signal`, `update_signal`, `revoke_signal`) is not part of the
repository snapshot — only its integration tests and the specification
describe it — so those operations are modelled from the specification
(sections 4.1–4.4); each such definition says so in its doc comment.

Bytes are `Nat`s in `[0, 255]`; byte strings are `List Nat`; 32-bit machine
words are `Nat`s reduced modulo `2 ^ 32` wherever overflow matters.
-/

namespace Sso1

/-! ## SHA-256 (FIPS 180-4)

The source computes digests with Python's `hashlib.sha256`; this section is
a faithful executable embedding of that algorithm over byte lists. -/

/-- Truncate to a 32-bit word. -/
def w32 (x : Nat) : Nat := x % 4294967296

/-- Right rotation of a 32-bit word by `n` bits. -/
def rotr (n x : Nat) : Nat := w32 ((x >>> n) ||| (x <<< (32 - n)))

/-- Logical right shift. -/
def shr (n x : Nat) : Nat := x >>> n

/-- 32-bit bitwise complement (operand assumed `< 2 ^ 32`). -/
def lnot32 (x : Nat) : Nat := 4294967295 ^^^ x

/-- The SHA-256 choice function. -/
def ch (e f g : Nat) : Nat := (e &&& f) ^^^ (lnot32 e &&& g)

/-- The SHA-256 majority function. -/
def maj (a b c : Nat) : Nat := (a &&& b) ^^^ (a &&& c) ^^^ (b &&& c)

/-- Big sigma-0 of FIPS 180-4. -/
def bigSigma0 (x : Nat) : Nat := rotr 2 x ^^^ rotr 13 x ^^^ rotr 22 x

/-- Big sigma-1 of FIPS 180-4. -/
def bigSigma1 (x : Nat) : Nat := rotr 6 x ^^^ rotr 11 x ^^^ rotr 25 x

/-- Small sigma-0 of FIPS 180-4. -/
def smallSigma0 (x : Nat) : Nat := rotr 7 x ^^^ rotr 18 x ^^^ shr 3 x

/-- Small sigma-1 of FIPS 180-4. -/
def smallSigma1 (x : Nat) : Nat := rotr 17 x ^^^ rotr 19 x ^^^ shr 10 x

/-- The 64 SHA-256 round constants of FIPS 180-4 (the fractional parts of
the cube roots of the first 64 primes), in decimal. -/
def sha256K : List Nat :=
  [1116352408, 1899447441, 3049323471, 3921009573,
   961987163, 1508970993, 2453635748, 2870763221,
   3624381080, 310598401, 607225278, 1426881987,
   1925078388, 2162078206, 2614888103, 3248222580,
   3835390401, 4022224774, 264347078, 604807628,
   770255983, 1249150122, 1555081692, 1996064986,
   2554220882, 2821834349, 2952996808, 3210313671,
   3336571891, 3584528711, 113926993, 338241895,
   666307205, 773529912, 1294757372, 1396182291,
   1695183700, 1986661051, 2177026350, 2456956037,
   2730485921, 2820302411, 3259730800, 3345764771,
   3516065817, 3600352804, 4094571909, 275423344,
   430227734, 506948616, 659060556, 883997877,
   958139571, 1322822218, 1537002063, 1747873779,
   1955562222, 2024104815, 2227730452, 2361852424,
   2428436474, 2756734187, 3204031479, 3329325298]

/-- SHA-256 working state: the eight 32-bit chaining words. -/
structure Sha256State where
  a : Nat
  b : Nat
  c : Nat
  d : Nat
  e : Nat
  f : Nat
  g : Nat
  h : Nat

/-- The SHA-256 initial hash value of FIPS 180-4 (the fractional parts of
the square roots of the first 8 primes), in decimal. -/
def sha256H0 : Sha256State :=
  ⟨1779033703, 3144134277, 1013904242, 2773480762,
   1359893119, 2600822924, 528734635, 1541459225⟩

/-- One SHA-256 compression round with round constant `k` and schedule word `w`. -/
def sha256Round (s : Sha256State) (k w : Nat) : Sha256State :=
  let t1 := w32 (s.h + bigSigma1 s.e + ch s.e s.f s.g + k + w)
  let t2 := w32 (bigSigma0 s.a + maj s.a s.b s.c)
  ⟨w32 (t1 + t2), s.a, s.b, s.c, w32 (s.d + t1), s.e, s.f, s.g⟩

/-- Extend the 16 message words of a block by `n` further schedule words. -/
def extendSchedule (ws : List Nat) : Nat → List Nat
  | 0 => ws
  | n + 1 =>
    let l := extendSchedule ws n
    let i := l.length
    l ++ [w32 (smallSigma1 (l.getD (i - 2) 0) + l.getD (i - 7) 0 +
               smallSigma0 (l.getD (i - 15) 0) + l.getD (i - 16) 0)]

/-- Big-endian 4-byte groups to 32-bit words. -/
def bytesToWords : List Nat → List Nat
  | b0 :: b1 :: b2 :: b3 :: rest =>
      (b0 * 16777216 + b1 * 65536 + b2 * 256 + b3) :: bytesToWords rest
  | _ => []

/-- Fold one 64-byte block into the chaining state. -/
def sha256Block (s : Sha256State) (block : List Nat) : Sha256State :=
  let ws := extendSchedule (bytesToWords block) 48
  let t := (sha256K.zip ws).foldl (fun st kw => sha256Round st kw.1 kw.2) s
  ⟨w32 (s.a + t.a), w32 (s.b + t.b), w32 (s.c + t.c), w32 (s.d + t.d),
   w32 (s.e + t.e), w32 (s.f + t.f), w32 (s.g + t.g), w32 (s.h + t.h)⟩

/-- Split a byte list into 64-byte chunks; the fuel argument (instantiated
with the list length, which bounds the number of chunks) keeps the recursion
structural so that the kernel can evaluate it. -/
def chunks64Go : Nat → List Nat → List (List Nat)
  | _, [] => []
  | 0, l => [l]
  | n + 1, l => l.take 64 :: chunks64Go n (l.drop 64)

/-- Split a byte list into 64-byte chunks. -/
def chunks64 (l : List Nat) : List (List Nat) := chunks64Go l.length l

/-- The eight big-endian bytes of the 64-bit message bit length. -/
def lenBytes (n : Nat) : List Nat :=
  [n >>> 56 % 256, n >>> 48 % 256, n >>> 40 % 256, n >>> 32 % 256,
   n >>> 24 % 256, n >>> 16 % 256, n >>> 8 % 256, n % 256]

/-- SHA-256 padding: a 0x80 byte, zeros to 56 mod 64, then the bit length. -/
def padMessage (msg : List Nat) : List Nat :=
  let L := msg.length
  let k := (120 - (L + 1) % 64) % 64
  msg ++ [128] ++ List.replicate k 0 ++ lenBytes (8 * L)

/-- The four big-endian bytes of a 32-bit word. -/
def wordBytes (w : Nat) : List Nat :=
  [w >>> 24 % 256, w >>> 16 % 256, w >>> 8 % 256, w % 256]

/-- SHA-256 of a byte string, as its 32 digest bytes in emission order.
Checked in this development against the FIPS 180-4 test vectors for the
empty string, "abc" and a two-block input. -/
def sha256 (msg : List Nat) : List Nat :=
  let s := (chunks64 (padMessage msg)).foldl sha256Block sha256H0
  wordBytes s.a ++ wordBytes s.b ++ wordBytes s.c ++ wordBytes s.d ++
  wordBytes s.e ++ wordBytes s.f ++ wordBytes s.g ++ wordBytes s.h

/-! ## TEE module — `src/oracle/offchain/tee/__init__.py` -/

/-- The `TeePlatform` enum of the TEE module. -/
inductive TeePlatform where
  | amdSevSnp
  | intelTdx
  | unknown
deriving DecidableEq

/-- The `AttestationReport` dataclass of the TEE module: raw platform
attestation output. -/
structure AttestationReport where
  platform : TeePlatform
  reportData : List Nat
  measurement : List Nat
  reportId : List Nat
  platformVersion : Nat
  tcbVersion : Nat

/-- The `SevSnpAttester` class of the TEE module: its only state is the
`_available` flag. -/
structure SevSnpAttester where
  available : Bool

/-- `SevSnpAttester.__init__`: sets `_available = False` (the SEV-SNP
interface is a stub; no device probe is performed). -/
def SevSnpAttester.init : SevSnpAttester := ⟨false⟩

/-- The `is_available` property: returns the `_available` field. -/
def SevSnpAttester.is_available (a : SevSnpAttester) : Bool := a.available

/-- `SevSnpAttester.get_report`: the source body logs a warning and returns
`None` unconditionally. -/
def SevSnpAttester.get_report (_ : SevSnpAttester) (_userData : List Nat) :
    Option AttestationReport := none

/-- `SevSnpAttester.get_measurement`: the source body logs a warning and
returns `None` unconditionally. -/
def SevSnpAttester.get_measurement (_ : SevSnpAttester) : Option (List Nat) := none

/-- `detect_platform`: the source body logs a warning and returns
`TeePlatform.UNKNOWN` unconditionally. -/
def detect_platform : TeePlatform := .unknown

/-- `hash_signal_data`: SHA-256 of the concatenation
`market_context + signal_assessment`. -/
def hash_signal_data (marketContext signalAssessment : List Nat) : List Nat :=
  sha256 (marketContext ++ signalAssessment)

/-- `get_attester`: dispatch on `detect_platform()`; `None` for Intel TDX
and for an unknown platform. -/
def get_attester : Option SevSnpAttester :=
  match detect_platform with
  | .amdSevSnp => some SevSnpAttester.init
  | .intelTdx => none
  | .unknown => none

/-! ## Attestation binding — `TeeReceiptBuilder` of the integration tests -/

/-- The binding hash: `TeeReceiptBuilder._compute_message` of the
integration tests, `hashlib.sha256(signal_id + bytes(provider)).digest()`;
the specification's `compute_binding_hash`. -/
def compute_binding_hash (signalId submitterIdentity : List Nat) : List Nat :=
  sha256 (signalId ++ submitterIdentity)

/-- `TeeReceiptBuilder._compute_report_data` of the integration tests:
the 32-byte binding digest followed by 32 zero bytes. -/
def computeReportData (signalId provider : List Nat) : List Nat :=
  sha256 (signalId ++ provider) ++ List.replicate 32 0

/-- The specification's `build_report_data`, stated from its words
(`report_data = binding_hash || zero_padding(32)`) to compare against
`computeReportData`. -/
def build_report_data (bindingHash : List Nat) : List Nat :=
  bindingHash ++ List.replicate 32 0

/-! ## Verification engine — modelled from the specification

The on-chain program for the verification engine is not part of the
repository snapshot (only its integration tests are), so the operations of
specification sections 4.2–4.4 are modelled from the specification's words.
Identities (provider authorities) and signal ids are 32-byte strings,
`List Nat`; record stores are total functions from keys to optional
records, matching the spec's opaque deterministic-addressing collaborator. -/

/-- The error taxonomy of specification section 7. -/
inductive VerificationError where
  | Unauthorized
  | AlreadyInitialized
  | AlreadyRegistered
  | SignalAlreadyExists
  | SignalNotFound
  | AlreadyRevoked
  | InvalidUpdate
  | ProtocolPaused
  | ProviderNotActive
  | InsufficientSources
  | ConfidenceBelowMinimum
  | ValidityPeriodTooShort
  | ValidityPeriodTooLong
  | SignalExpired
  | EnclaveNotAllowed
  | ReportDataMismatch
  | SignatureInvalid
  | AttestationStale
  | AllowlistFull
  | EnclaveAlreadyAllowed
deriving DecidableEq

/-- Modelled from the spec: the persisted signal status; `Expired` is a
derived view, not a stored state (section 4.4). -/
inductive SignalStatus where
  | active
  | revoked
deriving DecidableEq

/-- Modelled from the spec: the `GlobalConfig` singleton of the policy
store (section 3). -/
structure GlobalConfig where
  admin : List Nat
  minValiditySlots : Nat
  maxValiditySlots : Nat
  minSourceCount : Nat
  minConfidence : Nat
  isPaused : Bool

/-- Modelled from the spec: the `MarketContext` snapshot (section 3); field
set as in the integration tests' `MarketContextBuilder`. -/
structure MarketContext where
  timestamp : Nat
  capturedAtSlot : Nat
  priceUsd : Nat
  volume24hUsd : Nat
  marketCapUsd : Nat
  priceChange24hBps : Int
  spreadBps : Nat
  depth2pctUsd : Nat
  sourceCount : Nat
  sourceBitmap : Nat
  assetSymbol : List Nat
  reserved : List Nat

/-- Modelled from the spec: the signal direction enum (section 3). -/
inductive SignalDirection where
  | long
  | short
  | neutral
deriving DecidableEq

/-- Modelled from the spec: the `SignalAssessment` payload (section 3);
field set as in the integration tests' `SignalAssessmentBuilder`. -/
structure SignalAssessment where
  direction : SignalDirection
  strength : Nat
  confidence : Nat
  timeHorizonSlots : Nat
  validUntilSlot : Nat
  generatedAtSlot : Nat
  riskScore : Nat
  suggestedSizeBps : Nat
  modelVersion : Nat
  modelParamsHash : List Nat
  reserved : List Nat

/-- Modelled from the spec: the persisted `TeeReceipt` artifact (section 3);
field set as in the integration tests' `TeeReceiptBuilder`. -/
structure TeeReceipt where
  mrEnclave : List Nat
  mrSigner : List Nat
  enclaveSignature : List Nat
  enclavePubkey : List Nat
  reportData : List Nat
  attestationTimestamp : Nat
  platform : TeePlatform
  svn : Nat
  reserved : List Nat

/-- Modelled from the spec: a persisted `SignalAccount` record (section 3). -/
structure SignalAccount where
  provider : List Nat
  signalId : List Nat
  marketContext : MarketContext
  assessment : SignalAssessment
  receipt : TeeReceipt
  status : SignalStatus

/-- Modelled from the spec: a per-provider `ProviderRegistry` record
(section 3). -/
structure ProviderRegistry where
  authority : List Nat
  displayName : List Nat
  isActive : Bool
  signalCount : Nat
  allowedEnclaves : List (List Nat)

/-- Modelled from the spec: the persisted state the engine operates on —
the policy singleton plus the keyed provider and signal stores, the
address resolver being an external deterministic-mapping collaborator
(section 6). -/
structure OracleState where
  config : Option GlobalConfig
  providers : List Nat → Option ProviderRegistry
  signals : List Nat × List Nat → Option SignalAccount

/-- The host signature primitive (section 6), an external collaborator:
given public key, message and signature, decide validity. -/
def SigVerifier := List Nat → List Nat → List Nat → Bool

/-- Modelled from the spec: the allowlist capacity is an open policy
parameter (section 9); it is fixed here, large enough that no claim
touches it. -/
def MAX_ALLOWED_ENCLAVES : Nat := 16

/-- The policy constants of the integration tests
(`MIN_VALIDITY_SLOTS` and friends in `test_signal_oracle.py`). -/
def MIN_VALIDITY_SLOTS : Nat := 10

/-- `MAX_VALIDITY_SLOTS` of the integration tests. -/
def MAX_VALIDITY_SLOTS : Nat := 1000

/-- `MIN_SOURCE_COUNT` of the integration tests. -/
def MIN_SOURCE_COUNT : Nat := 1

/-- `MIN_CONFIDENCE` of the integration tests. -/
def MIN_CONFIDENCE : Nat := 5000

/-- Modelled from the spec: `verify_receipt` (section 4.1). Steps in
order: enclave allowlist, report-data binding, signature; the freshness
bound is the spec's stated default of no bound (open question, section 9). -/
def verify_receipt (sigVerify : SigVerifier) (receipt : TeeReceipt)
    (signalId submitterIdentity : List Nat) (allowedEnclaves : List (List Nat)) :
    Except VerificationError Unit :=
  if ¬ allowedEnclaves.contains receipt.mrEnclave then
    .error .EnclaveNotAllowed
  else
    let expected := compute_binding_hash signalId submitterIdentity
    if receipt.reportData.take 32 ≠ expected ∨
        receipt.reportData.drop 32 ≠ List.replicate 32 0 then
      .error .ReportDataMismatch
    else if ¬ sigVerify receipt.enclavePubkey expected receipt.enclaveSignature then
      .error .SignatureInvalid
    else
      .ok ()

/-- Modelled from the spec: `initialize_config` (section 4.2) — succeeds
exactly once, sets `is_paused = false`. -/
def initialize_config (st : OracleState) (admin : List Nat)
    (minValidity maxValidity minSources minConf : Nat) :
    Except VerificationError OracleState :=
  match st.config with
  | some _ => .error .AlreadyInitialized
  | none =>
      .ok { st with config := some ⟨admin, minValidity, maxValidity, minSources, minConf, false⟩ }

/-- Modelled from the spec: `set_paused` (section 4.2) — admin only. -/
def set_paused (st : OracleState) (caller : List Nat) (value : Bool) :
    Except VerificationError OracleState :=
  match st.config with
  | none => .error .Unauthorized
  | some cfg =>
      if caller = cfg.admin then
        .ok { st with config := some { cfg with isPaused := value } }
      else
        .error .Unauthorized

/-- Modelled from the spec: `register_provider` (section 4.3) — creates an
active entry with an empty signal count and a singleton allowlist. -/
def register_provider (st : OracleState) (authority displayName initialEnclave : List Nat) :
    Except VerificationError OracleState :=
  match st.providers authority with
  | some _ => .error .AlreadyRegistered
  | none =>
      .ok { st with providers := fun k =>
              if k = authority then some ⟨authority, displayName, true, 0, [initialEnclave]⟩
              else st.providers k }

/-- Modelled from the spec: `add_enclave` (section 4.3) — authority only,
bounded set semantics. -/
def add_enclave (st : OracleState) (caller newEnclave : List Nat) :
    Except VerificationError OracleState :=
  match st.providers caller with
  | none => .error .Unauthorized
  | some reg =>
      if ¬ caller = reg.authority then .error .Unauthorized
      else if MAX_ALLOWED_ENCLAVES ≤ reg.allowedEnclaves.length then .error .AllowlistFull
      else if reg.allowedEnclaves.contains newEnclave then .error .EnclaveAlreadyAllowed
      else
        .ok { st with providers := fun k =>
                if k = caller then
                  some { reg with allowedEnclaves := reg.allowedEnclaves ++ [newEnclave] }
                else st.providers k }

/-- Modelled from the spec: whether the caller is the global admin of the
current config. -/
def isAdminOf (st : OracleState) (caller : List Nat) : Bool :=
  match st.config with
  | some cfg => caller == cfg.admin
  | none => false

/-- Modelled from the spec: `deactivate_provider` (section 4.3) — authority
or global admin; sets `is_active = false`. -/
def deactivate_provider (st : OracleState) (caller target : List Nat) :
    Except VerificationError OracleState :=
  match st.providers target with
  | none => .error .Unauthorized
  | some reg =>
      if caller = reg.authority ∨ isAdminOf st caller = true then
        .ok { st with providers := fun k =>
                if k = target then some { reg with isActive := false }
                else st.providers k }
      else
        .error .Unauthorized

/-- Modelled from the spec: `submit_signal` (section 4.4) — the eight
preconditions in their fixed fail-fast order, then persistence of the new
`Active` record and the provider's signal-count increment. -/
def submit_signal (sigVerify : SigVerifier) (st : OracleState)
    (provider signalId : List Nat) (mc : MarketContext)
    (asmt : SignalAssessment) (receipt : TeeReceipt) (currentSlot : Nat) :
    Except VerificationError OracleState :=
  match st.config with
  | none => .error .ProtocolPaused
  | some cfg =>
    if cfg.isPaused then .error .ProtocolPaused
    else match st.providers provider with
    | none => .error .ProviderNotActive
    | some reg =>
      if ¬ reg.isActive then .error .ProviderNotActive
      else if (st.signals (provider, signalId)).isSome then .error .SignalAlreadyExists
      else if mc.sourceCount < cfg.minSourceCount then .error .InsufficientSources
      else if asmt.confidence < cfg.minConfidence then .error .ConfidenceBelowMinimum
      else if asmt.validUntilSlot - asmt.generatedAtSlot < cfg.minValiditySlots then
        .error .ValidityPeriodTooShort
      else if cfg.maxValiditySlots < asmt.validUntilSlot - asmt.generatedAtSlot then
        .error .ValidityPeriodTooLong
      else if asmt.validUntilSlot ≤ currentSlot then .error .SignalExpired
      else match verify_receipt sigVerify receipt signalId provider reg.allowedEnclaves with
        | .error e => .error e
        | .ok _ =>
            .ok { st with
                  providers := fun k =>
                    if k = provider then some { reg with signalCount := reg.signalCount + 1 }
                    else st.providers k,
                  signals := fun k =>
                    if k = (provider, signalId) then
                      some ⟨provider, signalId, mc, asmt, receipt, .active⟩
                    else st.signals k }

/-- Modelled from the spec: `update_signal` (section 4.4) — the record must
exist and belong to the caller (`SignalNotFound` / `Unauthorized`), must
still be `Active` (`InvalidUpdate`), and the new payload re-runs checks 1,
2 and 4–8 of `submit_signal`; on success the three payloads are replaced
wholesale. -/
def update_signal (sigVerify : SigVerifier) (st : OracleState)
    (caller provider signalId : List Nat) (mc : MarketContext)
    (asmt : SignalAssessment) (receipt : TeeReceipt) (currentSlot : Nat) :
    Except VerificationError OracleState :=
  match st.signals (provider, signalId) with
  | none => .error .SignalNotFound
  | some acct =>
    if ¬ caller = acct.provider then .error .Unauthorized
    else if ¬ acct.status = .active then .error .InvalidUpdate
    else match st.config with
    | none => .error .ProtocolPaused
    | some cfg =>
      if cfg.isPaused then .error .ProtocolPaused
      else match st.providers provider with
      | none => .error .ProviderNotActive
      | some reg =>
        if ¬ reg.isActive then .error .ProviderNotActive
        else if mc.sourceCount < cfg.minSourceCount then .error .InsufficientSources
        else if asmt.confidence < cfg.minConfidence then .error .ConfidenceBelowMinimum
        else if asmt.validUntilSlot - asmt.generatedAtSlot < cfg.minValiditySlots then
          .error .ValidityPeriodTooShort
        else if cfg.maxValiditySlots < asmt.validUntilSlot - asmt.generatedAtSlot then
          .error .ValidityPeriodTooLong
        else if asmt.validUntilSlot ≤ currentSlot then .error .SignalExpired
        else match verify_receipt sigVerify receipt signalId provider reg.allowedEnclaves with
          | .error e => .error e
          | .ok _ =>
              .ok { st with signals := fun k =>
                      if k = (provider, signalId) then
                        some { acct with marketContext := mc, assessment := asmt, receipt := receipt }
                      else st.signals k }

/-- Modelled from the spec: `revoke_signal` (section 4.4) — owning
authority only (`Unauthorized` otherwise, checked first per section 4.4),
terminal (`AlreadyRevoked` on a second call). -/
def revoke_signal (st : OracleState) (caller provider signalId : List Nat) :
    Except VerificationError OracleState :=
  match st.signals (provider, signalId) with
  | none => .error .SignalNotFound
  | some acct =>
    if ¬ caller = acct.provider then .error .Unauthorized
    else if acct.status = .revoked then .error .AlreadyRevoked
    else
      .ok { st with signals := fun k =>
              if k = (provider, signalId) then some { acct with status := .revoked }
              else st.signals k }

/-- The exposed mutating operations (section 6), as a closed alphabet for
reasoning about arbitrary call sequences. -/
inductive OracleOp where
  | initConfig (admin : List Nat) (minValidity maxValidity minSources minConf : Nat)
  | pauseOp (caller : List Nat) (value : Bool)
  | registerOp (authority displayName initialEnclave : List Nat)
  | addEnclaveOp (caller newEnclave : List Nat)
  | deactivateOp (caller target : List Nat)
  | submitOp (provider signalId : List Nat) (mc : MarketContext)
      (asmt : SignalAssessment) (receipt : TeeReceipt) (slot : Nat)
  | updateOp (caller provider signalId : List Nat) (mc : MarketContext)
      (asmt : SignalAssessment) (receipt : TeeReceipt) (slot : Nat)
  | revokeOp (caller provider signalId : List Nat)

/-- Commit an operation's result: a typed failure aborts with zero state
mutation (section 5's atomicity). -/
def commit (st : OracleState) : Except VerificationError OracleState → OracleState
  | .ok st2 => st2
  | .error _ => st

/-- Run one operation against the state, atomically. -/
def applyOp (sigVerify : SigVerifier) (st : OracleState) : OracleOp → OracleState
  | .initConfig a v1 v2 s c => commit st (initialize_config st a v1 v2 s c)
  | .pauseOp caller v => commit st (set_paused st caller v)
  | .registerOp a d e => commit st (register_provider st a d e)
  | .addEnclaveOp c e => commit st (add_enclave st c e)
  | .deactivateOp c t => commit st (deactivate_provider st c t)
  | .submitOp p sid mc asmt r slot => commit st (submit_signal sigVerify st p sid mc asmt r slot)
  | .updateOp c p sid mc asmt r slot =>
      commit st (update_signal sigVerify st c p sid mc asmt r slot)
  | .revokeOp c p sid => commit st (revoke_signal st c p sid)

/-- Run a sequence of operations left to right. -/
def applyOps (sigVerify : SigVerifier) (ops : List OracleOp) (st : OracleState) : OracleState :=
  ops.foldl (applyOp sigVerify) st

/-- Whether an engine call returned a success. -/
def isOk : Except VerificationError OracleState → Bool
  | .ok _ => true
  | .error _ => false

/-! ## Concrete fixtures

Closed inputs on which the development is evaluated: 32-byte identities,
a registered provider, a config with the integration tests' policy
constants, and a receipt correctly bound to `(sidA, provX)`. -/

/-- A concrete 32-byte signal id. -/
def sidA : List Nat := List.replicate 32 1

/-- A second, distinct 32-byte value. -/
def sidB : List Nat := List.replicate 32 2

/-- A concrete 32-byte provider identity. -/
def provX : List Nat := List.replicate 32 3

/-- A concrete 32-byte enclave measurement. -/
def enclaveE : List Nat := List.replicate 32 7

/-- A concrete 32-byte admin identity. -/
def adminId : List Nat := List.replicate 32 9

/-- A host signature collaborator that accepts every signature; the
signature primitive is external to the core (section 6). -/
def permissiveVerifier : SigVerifier := fun _ _ _ => true

/-- The config of the integration tests:
`(min=10, max=1000, sources=1, confidence=5000)`, unpaused. -/
def cfg0 : GlobalConfig :=
  ⟨adminId, MIN_VALIDITY_SLOTS, MAX_VALIDITY_SLOTS, MIN_SOURCE_COUNT, MIN_CONFIDENCE, false⟩

/-- An active registered provider trusting `enclaveE`, as after
`register_provider`. -/
def reg0 : ProviderRegistry := ⟨provX, List.replicate 32 0, true, 0, [enclaveE]⟩

/-- The market context of `MarketContextBuilder`'s defaults. -/
def mc0 : MarketContext :=
  ⟨0, 0, 5000000000000, 1000000000000, 1000000000000000, 250, 10,
   10000000000000, 3, 7, [66, 84, 67, 0, 0, 0, 0, 0], List.replicate 32 0⟩

/-- An assessment with the given generation slot, expiry slot and
confidence; other fields from `SignalAssessmentBuilder`'s defaults. -/
def asmtWith (gen untl conf : Nat) : SignalAssessment :=
  ⟨.long, 7500, conf, 100, untl, gen, 3000, 500, 1,
   List.replicate 32 0, List.replicate 16 0⟩

/-- A receipt from `enclaveE` correctly bound to `(sidA, provX)`:
its report data is the binding digest followed by the zero padding. -/
def receipt0 : TeeReceipt :=
  ⟨enclaveE, List.replicate 32 0, List.replicate 64 0, List.replicate 32 5,
   computeReportData sidA provX, 0, .amdSevSnp, 1, List.replicate 13 0⟩

/-- A state with the test config, every provider key resolving to `reg0`,
and no signals. -/
def st0 : OracleState := ⟨some cfg0, fun _ => some reg0, fun _ => none⟩

/-- A revoked signal account for `(sidA, provX)`. -/
def revokedAcct : SignalAccount :=
  ⟨provX, sidA, mc0, asmtWith 0 100 8000, receipt0, .revoked⟩

/-- A state holding the revoked account under every signal key. -/
def stRevoked : OracleState :=
  ⟨some cfg0, fun _ => some reg0, fun _ => some revokedAcct⟩

/-! ## General lemmas -/

/-- A SHA-256 digest is exactly 32 bytes, whatever the message. -/
theorem sha256_length (msg : List Nat) : (sha256 msg).length = 32 := by
  simp [sha256, wordBytes]

/-! ## Claim theorems -/

/-- Claim C1: for every 32-byte signal id and every 32-byte submitter
identity, the binding hash equals the SHA-256 digest of the
order-dependent concatenation `signal_id || submitter_identity`, and the
computation is deterministic: equal inputs give equal 32-byte outputs. -/
theorem binding_hash_sha256_deterministic (sid sub : List Nat)
    (h1 : sid.length = 32) (h2 : sub.length = 32) :
    compute_binding_hash sid sub = sha256 (sid ++ sub)
    ∧ (compute_binding_hash sid sub).length = 32
    ∧ ∀ sid2 sub2 : List Nat, sid = sid2 → sub = sub2 →
        compute_binding_hash sid sub = compute_binding_hash sid2 sub2 :=
  ⟨rfl, sha256_length _, fun _ _ hs hb => by rw [hs, hb]⟩

/-- Witness for C1 at the concrete pair `(sidA, provX)`. -/
theorem binding_hash_sha256_deterministic_witness :
    sidA.length = 32 ∧ provX.length = 32
    ∧ (compute_binding_hash sidA provX = sha256 (sidA ++ provX)
       ∧ (compute_binding_hash sidA provX).length = 32
       ∧ ∀ sid2 sub2 : List Nat, sidA = sid2 → provX = sub2 →
           compute_binding_hash sidA provX = compute_binding_hash sid2 sub2) :=
  ⟨by decide, by decide,
   binding_hash_sha256_deterministic sidA provX (by decide) (by decide)⟩

/-- Claim C2: for every 32-byte binding hash the built report data is
exactly 64 bytes — the binding hash in bytes 0..31 and 32 zero bytes in
bytes 32..63 — and the tests' report-data construction is the spec's
`build_report_data` of the binding hash. -/
theorem report_data_layout (bh sid prov : List Nat) (hbh : bh.length = 32) :
    (build_report_data bh).length = 64
    ∧ (build_report_data bh).take 32 = bh
    ∧ (build_report_data bh).drop 32 = List.replicate 32 0
    ∧ computeReportData sid prov = build_report_data (compute_binding_hash sid prov) := by
  refine ⟨?_, ?_, ?_, rfl⟩
  · simp [build_report_data, hbh]
  · show (bh ++ List.replicate 32 0).take 32 = bh
    rw [← hbh]
    exact List.take_left bh _
  · show (bh ++ List.replicate 32 0).drop 32 = List.replicate 32 0
    rw [← hbh]
    exact List.drop_left bh _

/-- Witness for C2 at the concrete 32-byte value `sidB` and the concrete
pair `(sidA, provX)`. -/
theorem report_data_layout_witness :
    sidB.length = 32
    ∧ ((build_report_data sidB).length = 64
       ∧ (build_report_data sidB).take 32 = sidB
       ∧ (build_report_data sidB).drop 32 = List.replicate 32 0
       ∧ computeReportData sidA provX
           = build_report_data (compute_binding_hash sidA provX)) :=
  ⟨by decide, report_data_layout sidB sidA provX (by decide)⟩

/-- Claim C4: for the SEV-SNP attester, unavailability is explicit and
never a silent success: whenever `is_available` is false, `get_report`
returns `none` on every 64-byte input and `get_measurement` returns
`none`. -/
theorem attester_unavailable_is_explicit (a : SevSnpAttester)
    (h : a.is_available = false) :
    (∀ u : List Nat, u.length = 64 → a.get_report u = none)
    ∧ a.get_measurement = none :=
  ⟨fun _ _ => rfl, rfl⟩

/-- Witness for C4 at the freshly constructed attester. -/
theorem attester_unavailable_is_explicit_witness :
    SevSnpAttester.init.is_available = false
    ∧ (List.replicate 64 0 : List Nat).length = 64
    ∧ SevSnpAttester.init.get_report (List.replicate 64 0) = none
    ∧ SevSnpAttester.init.get_measurement = none :=
  ⟨rfl, by decide,
   (attester_unavailable_is_explicit SevSnpAttester.init rfl).1 _ (by decide),
   (attester_unavailable_is_explicit SevSnpAttester.init rfl).2⟩

/-- Claim C9: `hash_signal_data` does not encode the boundary between its
two arguments — any two splits of the same concatenated byte string hash
identically. -/
theorem hash_signal_data_boundary_free (m s m2 s2 : List Nat)
    (h : m ++ s = m2 ++ s2) :
    hash_signal_data m s = hash_signal_data m2 s2 := by
  unfold hash_signal_data
  rw [h]

/-- Witness for C9: the splits `([1], [2, 3])` and `([1, 2], [3])` of
`[1, 2, 3]` collide. -/
theorem hash_signal_data_boundary_free_witness :
    ([1] ++ [2, 3] : List Nat) = [1, 2] ++ [3]
    ∧ hash_signal_data [1] [2, 3] = hash_signal_data [1, 2] [3] :=
  ⟨rfl, hash_signal_data_boundary_free [1] [2, 3] [1, 2] [3] rfl⟩

/-- Claim C10: attestation production is unconditionally unavailable in
this implementation — `detect_platform` always answers unknown,
`get_attester` always answers `none`, a fresh `SevSnpAttester` is
unavailable, and its report and measurement accessors always answer
`none`; no attestation report is ever produced through the public
off-chain interface. -/
theorem attestation_production_unconditionally_unavailable :
    detect_platform = TeePlatform.unknown
    ∧ get_attester = none
    ∧ SevSnpAttester.init.is_available = false
    ∧ (∀ (a : SevSnpAttester) (u : List Nat), a.get_report u = none)
    ∧ (∀ a : SevSnpAttester, a.get_measurement = none) :=
  ⟨rfl, rfl, rfl, fun _ _ => rfl, fun _ => rfl⟩

/-! ## Operation shape lemmas

What a successful call can have done to the signal store: the policy and
registry operations leave it untouched; the three signal operations touch
exactly the addressed key, and only under the stated preconditions. -/

/-- A successful `initialize_config` leaves the signal store untouched. -/
theorem initialize_config_ok_signals {st : OracleState} {a : List Nat}
    {v1 v2 s c : Nat} {st2 : OracleState}
    (hok : initialize_config st a v1 v2 s c = .ok st2) : st2.signals = st.signals := by
  unfold initialize_config at hok
  repeat' split at hok
  all_goals first
    | exact Except.noConfusion hok
    | (injection hok with h; subst h; rfl)

/-- A successful `set_paused` leaves the signal store untouched. -/
theorem set_paused_ok_signals {st : OracleState} {caller : List Nat}
    {v : Bool} {st2 : OracleState}
    (hok : set_paused st caller v = .ok st2) : st2.signals = st.signals := by
  unfold set_paused at hok
  repeat' split at hok
  all_goals first
    | exact Except.noConfusion hok
    | (injection hok with h; subst h; rfl)

/-- A successful `register_provider` leaves the signal store untouched. -/
theorem register_provider_ok_signals {st : OracleState} {a d e : List Nat}
    {st2 : OracleState}
    (hok : register_provider st a d e = .ok st2) : st2.signals = st.signals := by
  unfold register_provider at hok
  repeat' split at hok
  all_goals first
    | exact Except.noConfusion hok
    | (injection hok with h; subst h; rfl)

/-- A successful `add_enclave` leaves the signal store untouched. -/
theorem add_enclave_ok_signals {st : OracleState} {c e : List Nat}
    {st2 : OracleState}
    (hok : add_enclave st c e = .ok st2) : st2.signals = st.signals := by
  unfold add_enclave at hok
  repeat' split at hok
  all_goals first
    | exact Except.noConfusion hok
    | (injection hok with h; subst h; rfl)

/-- A successful `deactivate_provider` leaves the signal store untouched. -/
theorem deactivate_provider_ok_signals {st : OracleState} {c t : List Nat}
    {st2 : OracleState}
    (hok : deactivate_provider st c t = .ok st2) : st2.signals = st.signals := by
  unfold deactivate_provider at hok
  repeat' split at hok
  all_goals first
    | exact Except.noConfusion hok
    | (injection hok with h; subst h; rfl)

/-- A successful `submit_signal` requires the addressed key to have been
free, and touches no other key. -/
theorem submit_signal_ok_shape {sigVerify : SigVerifier} {st : OracleState}
    {p2 sid2 : List Nat} {mc : MarketContext} {asmt : SignalAssessment}
    {r : TeeReceipt} {slot : Nat} {st2 : OracleState}
    (hok : submit_signal sigVerify st p2 sid2 mc asmt r slot = .ok st2) :
    st.signals (p2, sid2) = none
    ∧ ∀ k, k ≠ (p2, sid2) → st2.signals k = st.signals k := by
  unfold submit_signal at hok
  repeat' split at hok
  all_goals first
    | exact Except.noConfusion hok
    | (injection hok with h; subst h;
       refine ⟨?_, fun k hk => by simp [if_neg hk]⟩;
       simp_all)

set_option maxHeartbeats 1000000 in
/-- A successful `update_signal` requires the addressed record to have
been `Active`, and touches no other key. -/
theorem update_signal_ok_shape {sigVerify : SigVerifier} {st : OracleState}
    {c p2 sid2 : List Nat} {mc : MarketContext} {asmt : SignalAssessment}
    {r : TeeReceipt} {slot : Nat} {st2 : OracleState}
    (hok : update_signal sigVerify st c p2 sid2 mc asmt r slot = .ok st2) :
    (∃ acct2, st.signals (p2, sid2) = some acct2 ∧ acct2.status = .active)
    ∧ ∀ k, k ≠ (p2, sid2) → st2.signals k = st.signals k := by
  unfold update_signal at hok
  repeat' split at hok
  all_goals first
    | exact Except.noConfusion hok
    | (injection hok with h; subst h;
       refine ⟨⟨_, by assumption, ?_⟩, fun k hk => by simp [if_neg hk]⟩;
       first
         | assumption
         | (apply not_not.mp; assumption)
         | simp_all)

/-- A successful `revoke_signal` requires the addressed record not to have
been `Revoked` already, and touches no other key. -/
theorem revoke_signal_ok_shape {st : OracleState} {c p2 sid2 : List Nat}
    {st2 : OracleState}
    (hok : revoke_signal st c p2 sid2 = .ok st2) :
    (∃ acct2, st.signals (p2, sid2) = some acct2 ∧ ¬ acct2.status = .revoked)
    ∧ ∀ k, k ≠ (p2, sid2) → st2.signals k = st.signals k := by
  unfold revoke_signal at hok
  repeat' split at hok
  all_goals first
    | exact Except.noConfusion hok
    | (injection hok with h; subst h;
       refine ⟨⟨_, by assumption, by assumption⟩, fun k hk => by simp [if_neg hk]⟩)

/-- One operation, whatever it is and whoever calls it, leaves a revoked
record exactly as it is. -/
theorem applyOp_keeps_revoked (sigVerify : SigVerifier) (st : OracleState)
    (p sid : List Nat) (acct : SignalAccount) (op : OracleOp)
    (hl : st.signals (p, sid) = some acct) (hrev : acct.status = .revoked) :
    (applyOp sigVerify st op).signals (p, sid) = some acct := by
  cases op with
  | initConfig a v1 v2 s c =>
      cases hres : initialize_config st a v1 v2 s c with
      | error e => simp [applyOp, commit, hres, hl]
      | ok st2 => simp [applyOp, commit, hres, initialize_config_ok_signals hres, hl]
  | pauseOp caller v =>
      cases hres : set_paused st caller v with
      | error e => simp [applyOp, commit, hres, hl]
      | ok st2 => simp [applyOp, commit, hres, set_paused_ok_signals hres, hl]
  | registerOp a d e =>
      cases hres : register_provider st a d e with
      | error e2 => simp [applyOp, commit, hres, hl]
      | ok st2 => simp [applyOp, commit, hres, register_provider_ok_signals hres, hl]
  | addEnclaveOp c e =>
      cases hres : add_enclave st c e with
      | error e2 => simp [applyOp, commit, hres, hl]
      | ok st2 => simp [applyOp, commit, hres, add_enclave_ok_signals hres, hl]
  | deactivateOp c t =>
      cases hres : deactivate_provider st c t with
      | error e => simp [applyOp, commit, hres, hl]
      | ok st2 => simp [applyOp, commit, hres, deactivate_provider_ok_signals hres, hl]
  | submitOp p2 sid2 mc asmt r slot =>
      cases hres : submit_signal sigVerify st p2 sid2 mc asmt r slot with
      | error e => simp [applyOp, commit, hres, hl]
      | ok st2 =>
          obtain ⟨hnone, hother⟩ := submit_signal_ok_shape hres
          by_cases hk : ((p : List Nat), sid) = (p2, sid2)
          · rw [hk] at hl
            rw [hl] at hnone
            exact Option.noConfusion hnone
          · simp [applyOp, commit, hres, hother _ hk, hl]
  | updateOp c p2 sid2 mc asmt r slot =>
      cases hres : update_signal sigVerify st c p2 sid2 mc asmt r slot with
      | error e => simp [applyOp, commit, hres, hl]
      | ok st2 =>
          obtain ⟨⟨acct2, heq, hact⟩, hother⟩ := update_signal_ok_shape hres
          by_cases hk : ((p : List Nat), sid) = (p2, sid2)
          · rw [hk] at hl
            rw [hl] at heq
            injection heq with h2
            rw [← h2] at hact
            rw [hrev] at hact
            exact SignalStatus.noConfusion hact
          · simp [applyOp, commit, hres, hother _ hk, hl]
  | revokeOp c p2 sid2 =>
      cases hres : revoke_signal st c p2 sid2 with
      | error e => simp [applyOp, commit, hres, hl]
      | ok st2 =>
          obtain ⟨⟨acct2, heq, hnotrev⟩, hother⟩ := revoke_signal_ok_shape hres
          by_cases hk : ((p : List Nat), sid) = (p2, sid2)
          · rw [hk] at hl
            rw [hl] at heq
            injection heq with h2
            rw [← h2] at hnotrev
            exact absurd hrev hnotrev
          · simp [applyOp, commit, hres, hother _ hk, hl]

/-- No sequence of operations touches a revoked record. -/
theorem applyOps_keeps_revoked (sigVerify : SigVerifier)
    (p sid : List Nat) (acct : SignalAccount) (ops : List OracleOp)
    (hrev : acct.status = .revoked) :
    ∀ st : OracleState, st.signals (p, sid) = some acct →
      (applyOps sigVerify ops st).signals (p, sid) = some acct := by
  induction ops with
  | nil => exact fun st hl => hl
  | cons op rest ih =>
      intro st hl
      exact ih _ (applyOp_keeps_revoked sigVerify st p sid acct op hl hrev)

/-- Counterexample to C5 as stated: on the revoked record, a `revoke_signal`
call by a non-owner (`sidB` is not the record's provider) fails
`Unauthorized`, not `AlreadyRevoked` — authorization is checked first
(section 4.4). -/
theorem revoked_nonowner_unauthorized_counterexample :
    stRevoked.signals (provX, sidA) = some revokedAcct
    ∧ revokedAcct.status = .revoked
    ∧ revoke_signal stRevoked sidB provX sidA = .error .Unauthorized
    ∧ VerificationError.Unauthorized ≠ VerificationError.AlreadyRevoked :=
  ⟨rfl, rfl, rfl, by decide⟩

/-- Claim C5 (amended): once a record is `Revoked`, an `update_signal` by
the owning provider fails `InvalidUpdate` and a `revoke_signal` by the
owning provider fails `AlreadyRevoked`; a call by any other identity also
fails (`Unauthorized`); and no sequence of operations ever touches the
record again — in particular its status never returns to `Active`. -/
theorem revoked_is_terminal (sigVerify : SigVerifier) (st : OracleState)
    (p sid : List Nat) (acct : SignalAccount)
    (hl : st.signals (p, sid) = some acct)
    (hrev : acct.status = .revoked)
    (hp : acct.provider = p) :
    (∀ (mc : MarketContext) (asmt : SignalAssessment) (receipt : TeeReceipt) (slot : Nat),
        update_signal sigVerify st p p sid mc asmt receipt slot = .error .InvalidUpdate)
    ∧ revoke_signal st p p sid = .error .AlreadyRevoked
    ∧ (∀ (caller : List Nat) (mc : MarketContext) (asmt : SignalAssessment)
          (receipt : TeeReceipt) (slot : Nat),
        update_signal sigVerify st caller p sid mc asmt receipt slot = .error .InvalidUpdate
        ∨ update_signal sigVerify st caller p sid mc asmt receipt slot = .error .Unauthorized)
    ∧ (∀ caller : List Nat,
        revoke_signal st caller p sid = .error .AlreadyRevoked
        ∨ revoke_signal st caller p sid = .error .Unauthorized)
    ∧ (∀ ops : List OracleOp,
        (applyOps sigVerify ops st).signals (p, sid) = some acct) := by
  have hupd : ∀ (caller : List Nat) (mc : MarketContext) (asmt : SignalAssessment)
      (receipt : TeeReceipt) (slot : Nat), caller = acct.provider →
      update_signal sigVerify st caller p sid mc asmt receipt slot = .error .InvalidUpdate := by
    intro caller mc asmt receipt slot hc
    simp [update_signal, hl, hc, hrev]
  have hrevoke : ∀ caller : List Nat, caller = acct.provider →
      revoke_signal st caller p sid = .error .AlreadyRevoked := by
    intro caller hc
    simp [revoke_signal, hl, hc, hrev]
  refine ⟨fun mc asmt receipt slot => hupd p mc asmt receipt slot hp.symm,
          hrevoke p hp.symm, ?_, ?_, ?_⟩
  · intro caller mc asmt receipt slot
    by_cases hc : caller = acct.provider
    · exact Or.inl (hupd caller mc asmt receipt slot hc)
    · exact Or.inr (by simp [update_signal, hl, hc])
  · intro caller
    by_cases hc : caller = acct.provider
    · exact Or.inl (hrevoke caller hc)
    · exact Or.inr (by simp [revoke_signal, hl, hc])
  · exact fun ops => applyOps_keeps_revoked sigVerify p sid acct ops hrev st hl

/-- Witness for C5 at the concrete revoked record, exercised against an
update, a revoke, and a two-operation sequence. -/
theorem revoked_is_terminal_witness :
    stRevoked.signals (provX, sidA) = some revokedAcct
    ∧ revokedAcct.status = .revoked
    ∧ revokedAcct.provider = provX
    ∧ update_signal permissiveVerifier stRevoked provX provX sidA mc0
        (asmtWith 0 100 8000) receipt0 0 = .error .InvalidUpdate
    ∧ revoke_signal stRevoked provX provX sidA = .error .AlreadyRevoked
    ∧ (applyOps permissiveVerifier
         [.revokeOp provX provX sidA,
          .submitOp provX sidA mc0 (asmtWith 0 100 8000) receipt0 0]
         stRevoked).signals (provX, sidA) = some revokedAcct :=
  ⟨rfl, rfl, rfl,
   (revoked_is_terminal permissiveVerifier stRevoked provX sidA revokedAcct
      rfl rfl rfl).1 mc0 (asmtWith 0 100 8000) receipt0 0,
   (revoked_is_terminal permissiveVerifier stRevoked provX sidA revokedAcct
      rfl rfl rfl).2.1,
   (revoked_is_terminal permissiveVerifier stRevoked provX sidA revokedAcct
      rfl rfl rfl).2.2.2.2
     [.revokeOp provX provX sidA,
      .submitOp provX sidA mc0 (asmtWith 0 100 8000) receipt0 0]⟩

set_option maxRecDepth 8000 in
/-- The concrete receipt `receipt0` passes the binding check for
`(sidA, provX)` against `reg0`'s allowlist: its report data is the binding
digest plus zero padding, its enclave is allowed, and the permissive host
verifier accepts its signature. -/
theorem verify_receipt0_ok :
    verify_receipt permissiveVerifier receipt0 sidA provX reg0.allowedEnclaves = .ok () := by
  rfl

/-- Claim C6: with the integration tests' config (`min = 10`,
`max = 1000`), a submission whose validity width is 5 fails
`ValidityPeriodTooShort`, width 2000 fails `ValidityPeriodTooLong`, and
width 100 succeeds when all other preconditions are satisfied. -/
theorem submit_validity_bounds (sigVerify : SigVerifier) (st : OracleState)
    (cfg : GlobalConfig) (reg : ProviderRegistry) (provider signalId : List Nat)
    (mc : MarketContext) (asmt : SignalAssessment) (receipt : TeeReceipt) (currentSlot : Nat)
    (hcfg : st.config = some cfg)
    (hmin : cfg.minValiditySlots = MIN_VALIDITY_SLOTS)
    (hmax : cfg.maxValiditySlots = MAX_VALIDITY_SLOTS)
    (hpause : cfg.isPaused = false)
    (hreg : st.providers provider = some reg)
    (hact : reg.isActive = true)
    (hfresh : st.signals (provider, signalId) = none)
    (hsrc : cfg.minSourceCount ≤ mc.sourceCount)
    (hconf : cfg.minConfidence ≤ asmt.confidence) :
    (asmt.validUntilSlot - asmt.generatedAtSlot = 5 →
      submit_signal sigVerify st provider signalId mc asmt receipt currentSlot
        = .error .ValidityPeriodTooShort)
    ∧ (asmt.validUntilSlot - asmt.generatedAtSlot = 2000 →
      submit_signal sigVerify st provider signalId mc asmt receipt currentSlot
        = .error .ValidityPeriodTooLong)
    ∧ (asmt.validUntilSlot - asmt.generatedAtSlot = 100 →
      currentSlot < asmt.validUntilSlot →
      verify_receipt sigVerify receipt signalId provider reg.allowedEnclaves = .ok () →
      isOk (submit_signal sigVerify st provider signalId mc asmt receipt currentSlot)
        = true) := by
  have h4 : ¬ mc.sourceCount < cfg.minSourceCount := Nat.not_lt.mpr hsrc
  have h5 : ¬ asmt.confidence < cfg.minConfidence := Nat.not_lt.mpr hconf
  refine ⟨fun hw => ?_, fun hw => ?_, fun hw hslot hv => ?_⟩
  · simp [submit_signal, hcfg, hpause, hreg, hact, hfresh, h4, h5, hw, hmin, hmax,
          MIN_VALIDITY_SLOTS, MAX_VALIDITY_SLOTS]
  · simp [submit_signal, hcfg, hpause, hreg, hact, hfresh, h4, h5, hw, hmin, hmax,
          MIN_VALIDITY_SLOTS, MAX_VALIDITY_SLOTS]
  · have h7 : ¬ asmt.validUntilSlot ≤ currentSlot := Nat.not_le.mpr hslot
    simp [submit_signal, hcfg, hpause, hreg, hact, hfresh, h4, h5, hw, hmin, hmax, h7, hv,
          MIN_VALIDITY_SLOTS, MAX_VALIDITY_SLOTS, isOk]

/-- Witness for C6: the three widths at the concrete otherwise-valid
submission. -/
theorem submit_validity_bounds_witness :
    submit_signal permissiveVerifier st0 provX sidA mc0 (asmtWith 0 5 8000) receipt0 0
      = .error .ValidityPeriodTooShort
    ∧ submit_signal permissiveVerifier st0 provX sidA mc0 (asmtWith 0 2000 8000) receipt0 0
      = .error .ValidityPeriodTooLong
    ∧ isOk (submit_signal permissiveVerifier st0 provX sidA mc0 (asmtWith 0 100 8000) receipt0 0)
      = true :=
  ⟨(submit_validity_bounds permissiveVerifier st0 cfg0 reg0 provX sidA mc0
      (asmtWith 0 5 8000) receipt0 0 rfl rfl rfl rfl rfl rfl rfl (by decide) (by decide)).1 rfl,
   (submit_validity_bounds permissiveVerifier st0 cfg0 reg0 provX sidA mc0
      (asmtWith 0 2000 8000) receipt0 0 rfl rfl rfl rfl rfl rfl rfl (by decide) (by decide)).2.1 rfl,
   (submit_validity_bounds permissiveVerifier st0 cfg0 reg0 provX sidA mc0
      (asmtWith 0 100 8000) receipt0 0 rfl rfl rfl rfl rfl rfl rfl (by decide) (by decide)).2.2
     rfl (by decide) verify_receipt0_ok⟩

/-- Claim C7: with the integration tests' `min_confidence = 5000`, a
submission with confidence 1000 fails `ConfidenceBelowMinimum` and one
with confidence 8000 passes the confidence gate, succeeding when all other
preconditions are satisfied. -/
theorem submit_confidence_gate (sigVerify : SigVerifier) (st : OracleState)
    (cfg : GlobalConfig) (reg : ProviderRegistry) (provider signalId : List Nat)
    (mc : MarketContext) (asmt : SignalAssessment) (receipt : TeeReceipt) (currentSlot : Nat)
    (hcfg : st.config = some cfg)
    (hminc : cfg.minConfidence = MIN_CONFIDENCE)
    (hpause : cfg.isPaused = false)
    (hreg : st.providers provider = some reg)
    (hact : reg.isActive = true)
    (hfresh : st.signals (provider, signalId) = none)
    (hsrc : cfg.minSourceCount ≤ mc.sourceCount) :
    (asmt.confidence = 1000 →
      submit_signal sigVerify st provider signalId mc asmt receipt currentSlot
        = .error .ConfidenceBelowMinimum)
    ∧ (asmt.confidence = 8000 →
      cfg.minValiditySlots ≤ asmt.validUntilSlot - asmt.generatedAtSlot →
      asmt.validUntilSlot - asmt.generatedAtSlot ≤ cfg.maxValiditySlots →
      currentSlot < asmt.validUntilSlot →
      verify_receipt sigVerify receipt signalId provider reg.allowedEnclaves = .ok () →
      isOk (submit_signal sigVerify st provider signalId mc asmt receipt currentSlot)
        = true) := by
  have h4 : ¬ mc.sourceCount < cfg.minSourceCount := Nat.not_lt.mpr hsrc
  refine ⟨fun hc => ?_, fun hc hw1 hw2 hslot hv => ?_⟩
  · simp [submit_signal, hcfg, hpause, hreg, hact, hfresh, h4, hc, hminc, MIN_CONFIDENCE]
  · have h5 : ¬ asmt.confidence < cfg.minConfidence := by
      rw [hminc, hc]
      decide
    have h6a : ¬ asmt.validUntilSlot - asmt.generatedAtSlot < cfg.minValiditySlots :=
      Nat.not_lt.mpr hw1
    have h6b : ¬ cfg.maxValiditySlots < asmt.validUntilSlot - asmt.generatedAtSlot :=
      Nat.not_lt.mpr hw2
    have h7 : ¬ asmt.validUntilSlot ≤ currentSlot := Nat.not_le.mpr hslot
    simp [submit_signal, hcfg, hpause, hreg, hact, hfresh, h4, h5, h6a, h6b, h7, hv, isOk]

/-- Witness for C7: both confidences at the concrete otherwise-valid
submission. -/
theorem submit_confidence_gate_witness :
    submit_signal permissiveVerifier st0 provX sidA mc0 (asmtWith 0 100 1000) receipt0 0
      = .error .ConfidenceBelowMinimum
    ∧ isOk (submit_signal permissiveVerifier st0 provX sidA mc0 (asmtWith 0 100 8000) receipt0 0)
      = true :=
  ⟨(submit_confidence_gate permissiveVerifier st0 cfg0 reg0 provX sidA mc0
      (asmtWith 0 100 1000) receipt0 0 rfl rfl rfl rfl rfl rfl (by decide)).1 rfl,
   (submit_confidence_gate permissiveVerifier st0 cfg0 reg0 provX sidA mc0
      (asmtWith 0 100 8000) receipt0 0 rfl rfl rfl rfl rfl rfl (by decide)).2
     rfl (by decide) (by decide) (by decide) verify_receipt0_ok⟩

/-- Counterexample to C8 as stated: an already-expired submission
(`valid_until = 50`, `current_slot = 1000`) whose confidence is also below
the minimum fails `ConfidenceBelowMinimum`, not `SignalExpired` — the
fail-fast order puts the confidence gate (check 5) before the expiry check
(check 7). -/
theorem submit_expired_counterexample :
    (asmtWith 0 50 1000).validUntilSlot ≤ 1000
    ∧ submit_signal permissiveVerifier st0 provX sidA mc0 (asmtWith 0 50 1000) receipt0 1000
        = .error .ConfidenceBelowMinimum
    ∧ VerificationError.ConfidenceBelowMinimum ≠ VerificationError.SignalExpired :=
  ⟨by decide, rfl, by decide⟩

/-- Claim C8 (amended): an already-expired submission never succeeds and
never creates a `SignalAccount` — the state is left untouched — and it
fails with `SignalExpired` exactly when the earlier checks 1–6 all pass;
when an earlier check also fails, that earlier error wins. -/
theorem submit_expired_never_persists (sigVerify : SigVerifier) (st : OracleState)
    (provider signalId : List Nat) (mc : MarketContext) (asmt : SignalAssessment)
    (receipt : TeeReceipt) (currentSlot : Nat)
    (hexp : asmt.validUntilSlot ≤ currentSlot) :
    isOk (submit_signal sigVerify st provider signalId mc asmt receipt currentSlot) = false
    ∧ applyOp sigVerify st (.submitOp provider signalId mc asmt receipt currentSlot) = st
    ∧ ∀ (cfg : GlobalConfig) (reg : ProviderRegistry),
        st.config = some cfg → cfg.isPaused = false →
        st.providers provider = some reg → reg.isActive = true →
        st.signals (provider, signalId) = none →
        cfg.minSourceCount ≤ mc.sourceCount →
        cfg.minConfidence ≤ asmt.confidence →
        cfg.minValiditySlots ≤ asmt.validUntilSlot - asmt.generatedAtSlot →
        asmt.validUntilSlot - asmt.generatedAtSlot ≤ cfg.maxValiditySlots →
        submit_signal sigVerify st provider signalId mc asmt receipt currentSlot
          = .error .SignalExpired := by
  have hno : isOk (submit_signal sigVerify st provider signalId mc asmt receipt currentSlot)
      = false := by
    unfold submit_signal
    repeat' split
    all_goals first | rfl | omega
  refine ⟨hno, ?_, ?_⟩
  · cases hres : submit_signal sigVerify st provider signalId mc asmt receipt currentSlot with
    | error e => simp [applyOp, commit, hres]
    | ok st2 =>
        rw [hres] at hno
        exact absurd hno (by simp [isOk])
  · intro cfg reg hcfg hpause hreg hact hfresh hsrc hconf hw1 hw2
    have h4 : ¬ mc.sourceCount < cfg.minSourceCount := Nat.not_lt.mpr hsrc
    have h5 : ¬ asmt.confidence < cfg.minConfidence := Nat.not_lt.mpr hconf
    have h6a : ¬ asmt.validUntilSlot - asmt.generatedAtSlot < cfg.minValiditySlots :=
      Nat.not_lt.mpr hw1
    have h6b : ¬ cfg.maxValiditySlots < asmt.validUntilSlot - asmt.generatedAtSlot :=
      Nat.not_lt.mpr hw2
    simp [submit_signal, hcfg, hpause, hreg, hact, hfresh, h4, h5, h6a, h6b, hexp]

/-- Witness for C8 at the concrete expired but otherwise valid
submission. -/
theorem submit_expired_never_persists_witness :
    (asmtWith 0 50 8000).validUntilSlot ≤ 1000
    ∧ applyOp permissiveVerifier st0
        (.submitOp provX sidA mc0 (asmtWith 0 50 8000) receipt0 1000) = st0
    ∧ submit_signal permissiveVerifier st0 provX sidA mc0 (asmtWith 0 50 8000) receipt0 1000
        = .error .SignalExpired :=
  ⟨by decide,
   (submit_expired_never_persists permissiveVerifier st0 provX sidA mc0
      (asmtWith 0 50 8000) receipt0 1000 (by decide)).2.1,
   (submit_expired_never_persists permissiveVerifier st0 provX sidA mc0
      (asmtWith 0 50 8000) receipt0 1000 (by decide)).2.2 cfg0 reg0
     rfl rfl rfl rfl rfl (by decide) (by decide) (by decide) (by decide)⟩
